import Mathlib

set_option linter.unusedVariables false

/-!
Shallow embedding of the g935 headset driver (lights codec, battery curve,
device transport, configuration sync and the event loop's idle policy),
with theorems checking the specification's statements against the code.
Machine integers `u8`/`u16` are modelled as `Fin 256`/`Fin 65536`,
`f32` arithmetic as exact rational arithmetic, and fallible or panicking
code as `Option`/`Except` values.
-/

namespace lights

/-- Which light to configure (src/lights.rs, `Light`). -/
inductive Light where
  | Logo
  | Side
deriving DecidableEq, Repr

/-- Configuration for the light effect (src/lights.rs, `Effect`). -/
inductive Effect where
  | Off
  | Static (red green blue : Fin 256)
  | Breathing (red green blue : Fin 256) (rate : Fin 65536) (brightness : Fin 256)
  | ColorCycle (rate : Fin 65536) (brightness : Fin 256)
deriving DecidableEq, Repr

/-- Profile type (src/lights.rs, `ProfileType`). -/
inductive ProfileType where
  | Temporary
  | Permanent
deriving DecidableEq, Repr

/-- Headset light configuration (src/lights.rs, `Config`). -/
structure Config where
  light : Light
  effect : Effect
  profile_type : ProfileType
deriving DecidableEq, Repr

/-- Big-endian bytes of a `u16`, as in `u16::to_be_bytes`. -/
def u16_to_be_bytes (r : Fin 65536) : Fin 256 × Fin 256 :=
  (⟨r.val / 256, by have := r.isLt; omega⟩, ⟨r.val % 256, by omega⟩)

/-- Reassemble a `u16` from big-endian bytes, as in `u16::from_be_bytes`. -/
def u16_from_be_bytes (hi lo : Fin 256) : Fin 65536 :=
  ⟨hi.val * 256 + lo.val, by have := hi.isLt; have := lo.isLt; omega⟩

/-- Encoder for the 13-byte light-configuration body
(src/lights.rs, `impl AsBytes for Config`): starts from a zeroed 13-byte
vector and writes the discriminants and per-effect fields at their offsets. -/
def Config.as_bytes (c : Config) : List (Fin 256) :=
  let b0 : Fin 256 := match c.light with
    | Light.Logo => 0
    | Light.Side => 1
  let b12 : Fin 256 := match c.profile_type with
    | ProfileType.Temporary => 0
    | ProfileType.Permanent => 2
  match c.effect with
  | Effect.Off => [b0, 0, 0, 0, 0, 0, 0, 0, 0, 0, 0, 0, b12]
  | Effect.Static r g b => [b0, 1, r, g, b, 0, 0, 0, 0, 0, 0, 0, b12]
  | Effect.Breathing r g b rate br =>
      [b0, 2, r, g, b, (u16_to_be_bytes rate).1, (u16_to_be_bytes rate).2, 0, br, 0, 0, 0, b12]
  | Effect.ColorCycle rate br =>
      [b0, 3, 0, 0, 0, 0, 0, (u16_to_be_bytes rate).1, (u16_to_be_bytes rate).2, br, 0, 0, b12]

/-- Decoder for the light-configuration body
(src/lights.rs, `impl FromBytes for Config`).  The source asserts the
discriminant ranges and indexes the slice directly; an assertion failure or
an out-of-bounds index panics, modelled here as `none`. -/
def Config.from_bytes (bytes : List (Fin 256)) : Option Config :=
  if bytes.length < 13 then none
  else
    let b : Nat → Fin 256 := fun i => bytes.getD i 0
    if (b 0).val ≤ 1 ∧ (b 1).val ≤ 3 ∧ ((b 12).val = 0 ∨ (b 12).val = 2) then
      let light := if (b 0).val = 0 then Light.Logo else Light.Side
      let effect :=
        if (b 1).val = 0 then Effect.Off
        else if (b 1).val = 1 then Effect.Static (b 2) (b 3) (b 4)
        else if (b 1).val = 2 then
          Effect.Breathing (b 2) (b 3) (b 4) (u16_from_be_bytes (b 5) (b 6)) (b 8)
        else Effect.ColorCycle (u16_from_be_bytes (b 7) (b 8)) (b 9)
      let profile_type := if (b 12).val = 0 then ProfileType.Temporary else ProfileType.Permanent
      some { light := light, effect := effect, profile_type := profile_type }
    else none

/-- Round-trip helper: decoding an encoded configuration restores it. -/
lemma from_bytes_as_bytes (c : Config) : Config.from_bytes c.as_bytes = some c := by
  obtain ⟨light, effect, profile⟩ := c
  cases light <;> cases profile <;> cases effect
  all_goals
    simp [Config.as_bytes, Config.from_bytes, u16_to_be_bytes, u16_from_be_bytes, Fin.ext_iff,
      (by decide : ((1 : Fin 256) : Nat) = 1), (by decide : ((2 : Fin 256) : Nat) = 2),
      (by decide : ((3 : Fin 256) : Nat) = 3)]
  all_goals omega

end lights

/-- Claim C5: for every lights configuration (any zone, any effect variant,
any profile type), decoding the encoding yields the original value. -/
theorem lights_config_roundtrip (c : lights.Config) :
    lights.Config.from_bytes c.as_bytes = some c :=
  lights.from_bytes_as_bytes c

/-- A concrete ColorCycle configuration: rate 258 (big-endian bytes 1, 2)
and brightness 7. -/
def colorcycle_example : lights.Config :=
  { light := lights.Light.Side
    effect := lights.Effect.ColorCycle 258 7
    profile_type := lights.ProfileType.Temporary }

/-- Claim C9 counterexample: in the encoding of `colorcycle_example`, bytes 7
and 8 hold only the big-endian rate (1 and 2); the brightness 7 does not appear
in bytes 7–8 — it is written at byte 9.  So the encoder does not write the rate
together with the brightness into bytes 7–8, contrary to the claim. -/
theorem colorcycle_brightness_not_in_bytes_7_8 :
    colorcycle_example.as_bytes.getD 7 0 = (1 : Fin 256) ∧
    colorcycle_example.as_bytes.getD 8 0 = (2 : Fin 256) ∧
    ¬ (colorcycle_example.as_bytes.getD 7 0 = (7 : Fin 256) ∨
       colorcycle_example.as_bytes.getD 8 0 = (7 : Fin 256)) ∧
    colorcycle_example.as_bytes.getD 9 0 = (7 : Fin 256) := by
  decide

/-- Claim C9 (amended): in the 13-byte body the encoder writes the ColorCycle
big-endian rate into bytes 7–8 and its brightness into byte 9, while Breathing
uses bytes 5–6 for its rate and byte 8 for its brightness (so ColorCycle's
low rate byte shares offset 8 with Breathing's brightness byte); the decoder
reads the ColorCycle fields back from those same offsets. -/
theorem colorcycle_layout (li : lights.Light) (p : lights.ProfileType)
    (rate : Fin 65536) (br : Fin 256) (r g b : Fin 256)
    (rate2 : Fin 65536) (br2 : Fin 256) :
    (({ light := li, effect := lights.Effect.ColorCycle rate br, profile_type := p } :
        lights.Config).as_bytes.getD 7 0 = (lights.u16_to_be_bytes rate).1 ∧
     ({ light := li, effect := lights.Effect.ColorCycle rate br, profile_type := p } :
        lights.Config).as_bytes.getD 8 0 = (lights.u16_to_be_bytes rate).2 ∧
     ({ light := li, effect := lights.Effect.ColorCycle rate br, profile_type := p } :
        lights.Config).as_bytes.getD 9 0 = br) ∧
    (({ light := li, effect := lights.Effect.Breathing r g b rate2 br2, profile_type := p } :
        lights.Config).as_bytes.getD 5 0 = (lights.u16_to_be_bytes rate2).1 ∧
     ({ light := li, effect := lights.Effect.Breathing r g b rate2 br2, profile_type := p } :
        lights.Config).as_bytes.getD 6 0 = (lights.u16_to_be_bytes rate2).2 ∧
     ({ light := li, effect := lights.Effect.Breathing r g b rate2 br2, profile_type := p } :
        lights.Config).as_bytes.getD 8 0 = br2) ∧
    lights.Config.from_bytes
        ({ light := li, effect := lights.Effect.ColorCycle rate br, profile_type := p } :
          lights.Config).as_bytes
      = some { light := li, effect := lights.Effect.ColorCycle rate br, profile_type := p } := by
  refine ⟨?_, ?_, lights.from_bytes_as_bytes _⟩ <;>
    cases li <;> cases p <;> simp [lights.Config.as_bytes]

namespace battery

/-- Battery charge estimate as a function of the voltage in millivolts
(src/battery.rs, `estimate_battery_level`); the source's `f32` arithmetic
and `powf` are modelled as exact rational arithmetic. -/
def estimate_battery_level (voltage : ℕ) : ℚ :=
  if voltage ≤ 3525 then 3 / 100 * (voltage : ℚ) - 101
  else if 4030 < voltage then 100
  else
    let v : ℚ := (voltage : ℚ)
    37268473 / 10 ^ 16 * v ^ 4 - 56056262 / 10 ^ 12 * v ^ 3
      + 3156052 / 10 ^ 7 * v ^ 2 - 78809375 / 10 ^ 5 * v + 7363153 / 10

/-- The mid-range quartic with the coefficients of the source's design table. -/
def battery_quartic (v : ℚ) : ℚ :=
  37268473 / 10 ^ 16 * v ^ 4 - 56056262 / 10 ^ 12 * v ^ 3
    + 3156052 / 10 ^ 7 * v ^ 2 - 78809375 / 10 ^ 5 * v + 7363153 / 10

end battery

/-- Claim C6: the battery-charge estimate is the stated piecewise function of
the voltage: linear `0.03*V - 101` up to 3525 mV, clamped to 100 above
4030 mV, and the fixed quartic in between. -/
theorem estimate_battery_level_piecewise (V : ℕ) :
    (V ≤ 3525 → battery.estimate_battery_level V = 3 / 100 * (V : ℚ) - 101) ∧
    (4030 < V → battery.estimate_battery_level V = 100) ∧
    (3525 < V → V ≤ 4030 →
      battery.estimate_battery_level V = battery.battery_quartic (V : ℚ)) := by
  refine ⟨fun h => ?_, fun h => ?_, fun h1 h2 => ?_⟩
  · rw [battery.estimate_battery_level, if_pos h]
  · rw [battery.estimate_battery_level, if_neg (by omega), if_pos h]
  · rw [battery.estimate_battery_level, if_neg (by omega), if_neg (by omega)]
    rfl

/-- Witness for claim C6 at the three sample voltages 3000, 5000 and 3768. -/
theorem estimate_battery_level_piecewise_witness :
    battery.estimate_battery_level 3000 = 3 / 100 * ((3000 : ℕ) : ℚ) - 101 ∧
    battery.estimate_battery_level 5000 = 100 ∧
    battery.estimate_battery_level 3768 = battery.battery_quartic ((3768 : ℕ) : ℚ) :=
  ⟨(estimate_battery_level_piecewise 3000).1 (by decide),
   (estimate_battery_level_piecewise 5000).2.1 (by decide),
   (estimate_battery_level_piecewise 3768).2.2 (by decide) (by decide)⟩

/-- One result of the underlying `HidDevice::read_timeout` call
(src/device.rs, `Device::read`): `Except.ok bytes` for a successful read —
the empty list when nothing arrived within the timeout — and `Except.error e`
for a channel-level failure. -/
abbrev ReadResult := Except String (List Nat)

/-- The device transport (src/device.rs, `Device`): the stream of results the
underlying channel will deliver to successive reads, and the FIFO buffer of
unhandled messages (front = oldest). -/
structure Device where
  incoming : List ReadResult
  msg_buffer : List (List Nat)

/-- One bounded read (src/device.rs, `Device::read`): consume the next
result of the stream; an exhausted model stream behaves as reads that
find no data within the timeout. -/
def Device.read (d : Device) : ReadResult × Device :=
  match d.incoming with
  | [] => (Except.ok [], d)
  | r :: rest => (r, { d with incoming := rest })

/-- The read-and-match loop of `Device::request` (src/device.rs).  `fuel` is
the number of further loop iterations the 2-second overall deadline still
admits: the deadline check at the bottom of the source's loop becomes the
`fuel` match after buffering a non-matching frame.  Mirrors the source's
branch order: a frame shorter than 4 bytes or with a different first-4-byte
header is pushed to the back of the buffer; the `result.len() == 0` arm is
kept even though an empty read already falls into the buffering arm. -/
def Device.requestLoop : Nat → List Nat → Device → Except String (List Nat) × Device
  | fuel, data, d =>
    match Device.read d with
    | (Except.error e, d1) => (Except.error e, d1)
    | (Except.ok result, d1) =>
      if result.length < 4 ∨ result.take 4 ≠ data.take 4 then
        let d2 := { d1 with msg_buffer := d1.msg_buffer ++ [result] }
        match fuel with
        | 0 => (Except.error "request timed out", d2)
        | fuel + 1 => Device.requestLoop fuel data d2
      else if result.length = 0 then (Except.error "request timed out", d1)
      else (Except.ok result, d1)

/-- `Device::request` (src/device.rs): write the request — the write has no
model-visible state — then run the read-and-match loop. -/
def Device.request (fuel : Nat) (data : List Nat) (d : Device) :
    Except String (List Nat) × Device :=
  Device.requestLoop fuel data d

/-- `Device::next_unrequested_msg` (src/device.rs): pop the oldest buffered
message if there is one; otherwise perform one bounded read, turning a read
error into `none` via `.ok()` and returning `some bytes` otherwise (the empty
list when the read timed out). -/
def Device.next_unrequested_msg (timeout : Int) (d : Device) :
    Option (List Nat) × Device :=
  match d.msg_buffer with
  | msg :: rest => (some msg, { d with msg_buffer := rest })
  | [] =>
    match Device.read d with
    | (Except.ok bytes, d1) => (some bytes, d1)
    | (Except.error _, d1) => (none, d1)

/-- Results of `n` successive `next_unrequested_msg` calls. -/
def Device.drainN : Nat → Int → Device → List (Option (List Nat)) × Device
  | 0, _, d => ([], d)
  | n + 1, t, d =>
    let (m, d1) := Device.next_unrequested_msg t d
    let (ms, d2) := Device.drainN n t d1
    (m :: ms, d2)

/-- Draining as many messages as the buffer holds returns exactly the buffer
contents, oldest first. -/
lemma drainN_buffer (t : Int) :
    ∀ (B : List (List Nat)) (inc : List ReadResult),
      (Device.drainN B.length t ⟨inc, B⟩).1 = B.map some := by
  intro B
  induction B with
  | nil => intro inc; rfl
  | cons m rest ih =>
      intro inc
      simpa [Device.drainN, Device.next_unrequested_msg] using ih inc


/-- Claim C1: a successful `Device::request` returns a frame whose first four
bytes equal the request's first four bytes; every frame read along the way
that does not match that header is appended, in arrival order, to the back of
the FIFO buffer, from which successive `next_unrequested_msg` calls later
return it (oldest first), before any fresh read happens. -/
theorem request_correlation (fuel : Nat) (data : List Nat) (d : Device)
    (resp : List Nat) (d' : Device)
    (h : Device.request fuel data d = (Except.ok resp, d')) :
    4 ≤ resp.length ∧ resp.take 4 = data.take 4 ∧
    ∃ pre rest,
      d.incoming = pre.map Except.ok ++ Except.ok resp :: rest ∧
      (∀ f ∈ pre, f.length < 4 ∨ f.take 4 ≠ data.take 4) ∧
      d'.msg_buffer = d.msg_buffer ++ pre ∧
      d'.incoming = rest ∧
      ∀ t, (Device.drainN d'.msg_buffer.length t d').1 = (d.msg_buffer ++ pre).map some := by
  rw [Device.request] at h
  induction fuel generalizing d with
  | zero =>
      obtain ⟨inc, buf⟩ := d
      match inc with
      | [] =>
          rw [Device.requestLoop.eq_def] at h
          simp [Device.read] at h
      | Except.error e :: rest0 =>
          rw [Device.requestLoop.eq_def] at h
          simp [Device.read] at h
      | Except.ok result :: rest0 =>
          rw [Device.requestLoop.eq_def] at h
          by_cases hc : result.length < 4 ∨ result.take 4 ≠ data.take 4
          · simp [Device.read, hc] at h
          · push_neg at hc
            obtain ⟨hlen, htake⟩ := hc
            have hne : ¬ (result.length < 4 ∨ result.take 4 ≠ data.take 4) := by
              push_neg; exact ⟨hlen, htake⟩
            have hnz : ¬ result.length = 0 := by omega
            simp only [Device.read, if_neg hne, if_neg hnz] at h
            injection h with h1 h2
            injection h1 with h1
            subst h1; subst h2
            refine ⟨hlen, htake, [], rest0, by simp, by simp, by simp, rfl, fun t => ?_⟩
            simpa using drainN_buffer t buf rest0
  | succ fuel ih =>
      obtain ⟨inc, buf⟩ := d
      match inc with
      | [] =>
          rw [Device.requestLoop.eq_def] at h
          simp [Device.read] at h
          obtain ⟨_, _, pre, rest, hinc, -, -, -, -⟩ :=
            ih ⟨[], buf ++ [[]]⟩ h
          simp at hinc
      | Except.error e :: rest0 =>
          rw [Device.requestLoop.eq_def] at h
          simp [Device.read] at h
      | Except.ok result :: rest0 =>
          rw [Device.requestLoop.eq_def] at h
          by_cases hc : result.length < 4 ∨ result.take 4 ≠ data.take 4
          · simp only [Device.read, if_pos hc] at h
            obtain ⟨hlen, htake, pre, rest, hinc, hflt, hbuf, hinc', hdrain⟩ :=
              ih ⟨rest0, buf ++ [result]⟩ h
            refine ⟨hlen, htake, result :: pre, rest, ?_, ?_, ?_, hinc', fun t => ?_⟩
            · simpa using hinc
            · intro f hf
              rcases List.mem_cons.mp hf with hf | hf
              · subst hf; exact hc
              · exact hflt f hf
            · simpa [List.append_assoc] using hbuf
            · have := hdrain t
              simpa [List.append_assoc] using this
          · push_neg at hc
            obtain ⟨hlen, htake⟩ := hc
            have hne : ¬ (result.length < 4 ∨ result.take 4 ≠ data.take 4) := by
              push_neg; exact ⟨hlen, htake⟩
            have hnz : ¬ result.length = 0 := by omega
            simp only [Device.read, if_neg hne, if_neg hnz] at h
            injection h with h1 h2
            injection h1 with h1
            subst h1; subst h2
            refine ⟨hlen, htake, [], rest0, by simp, by simp, by simp, rfl, fun t => ?_⟩
            simpa using drainN_buffer t buf rest0

/-- A concrete request header for the witness run. -/
def req_data : List Nat := [0x11, 0xff, 4, 1]

/-- A concrete device for the witness run: one already-buffered message, then
a short non-matching frame, then the correlated response. -/
def req_device : Device :=
  ⟨[Except.ok [9, 9, 9], Except.ok [0x11, 0xff, 4, 1, 42]], [[5, 5, 5, 5, 5]]⟩

/-- Witness for claim C1: a concrete request run through `req_device`. -/
theorem request_correlation_witness :
    Device.request 2 req_data req_device
      = (Except.ok [0x11, 0xff, 4, 1, 42], ⟨[], [[5, 5, 5, 5, 5], [9, 9, 9]]⟩) ∧
    (4 ≤ ([0x11, 0xff, 4, 1, 42] : List Nat).length ∧
     ([0x11, 0xff, 4, 1, 42] : List Nat).take 4 = req_data.take 4 ∧
     ∃ pre rest,
       req_device.incoming = pre.map Except.ok ++ Except.ok [0x11, 0xff, 4, 1, 42] :: rest ∧
       (∀ f ∈ pre, f.length < 4 ∨ f.take 4 ≠ req_data.take 4) ∧
       (⟨[], [[5, 5, 5, 5, 5], [9, 9, 9]]⟩ : Device).msg_buffer
         = req_device.msg_buffer ++ pre ∧
       (⟨[], [[5, 5, 5, 5, 5], [9, 9, 9]]⟩ : Device).incoming = rest ∧
       ∀ t, (Device.drainN (⟨[], [[5, 5, 5, 5, 5], [9, 9, 9]]⟩ : Device).msg_buffer.length t
               ⟨[], [[5, 5, 5, 5, 5], [9, 9, 9]]⟩).1
             = (req_device.msg_buffer ++ pre).map some) :=
  ⟨rfl, request_correlation 2 req_data req_device [0x11, 0xff, 4, 1, 42]
    ⟨[], [[5, 5, 5, 5, 5], [9, 9, 9]]⟩ rfl⟩

/-- Claim C4 (amended): `next_unrequested_msg` pops the oldest buffered
message without touching the channel when the buffer is non-empty; otherwise
it performs one bounded read and returns `some bytes` for a successful read —
in particular `some []` when the read found no data — and `none` exactly when
the read failed. -/
theorem next_unrequested_msg_spec (t : Int) (d : Device) :
    (∀ m rest, d.msg_buffer = m :: rest →
        Device.next_unrequested_msg t d = (some m, { d with msg_buffer := rest })) ∧
    (d.msg_buffer = [] → ∀ bytes rest, d.incoming = Except.ok bytes :: rest →
        Device.next_unrequested_msg t d = (some bytes, { d with incoming := rest })) ∧
    (d.msg_buffer = [] → ∀ e rest, d.incoming = Except.error e :: rest →
        Device.next_unrequested_msg t d = (none, { d with incoming := rest })) ∧
    (d.msg_buffer = [] → d.incoming = [] →
        Device.next_unrequested_msg t d = (some [], d)) := by
  obtain ⟨inc, buf⟩ := d
  refine ⟨?_, ?_, ?_, ?_⟩
  · intro m rest hbuf
    subst hbuf
    simp [Device.next_unrequested_msg]
  · intro hbuf bytes rest hinc
    subst hbuf; subst hinc
    simp [Device.next_unrequested_msg, Device.read]
  · intro hbuf e rest hinc
    subst hbuf; subst hinc
    simp [Device.next_unrequested_msg, Device.read]
  · intro hbuf hinc
    subst hbuf; subst hinc
    simp [Device.next_unrequested_msg, Device.read]

/-- Witness for claim C4 (amended): a buffered message is popped without
device I/O, and an empty successful read yields `some []`. -/
theorem next_unrequested_msg_spec_witness :
    Device.next_unrequested_msg 500 ⟨[], [[1, 2]]⟩ = (some [1, 2], ⟨[], []⟩) ∧
    Device.next_unrequested_msg 500 ⟨[Except.ok []], []⟩ = (some [], ⟨[], []⟩) :=
  ⟨(next_unrequested_msg_spec 500 ⟨[], [[1, 2]]⟩).1 [1, 2] [] rfl,
   (next_unrequested_msg_spec 500 ⟨[Except.ok []], []⟩).2.1 rfl [] [] rfl⟩

/-- A device whose buffer is empty and whose next read times out. -/
def timeout_read_device : Device := ⟨[Except.ok []], []⟩

/-- A device whose buffer is empty and whose next read fails at channel level. -/
def error_read_device : Device := ⟨[Except.error "read failed"], []⟩

/-- Claim C4 counterexample: with an empty buffer, a read that yields an empty
result makes `next_unrequested_msg` return `some []`, not `None` as claimed. -/
theorem next_unrequested_msg_empty_read_not_none :
    (Device.next_unrequested_msg 500 timeout_read_device).1 = some [] ∧
    (Device.next_unrequested_msg 500 timeout_read_device).1 ≠ none := by
  decide

/-- Claim C10 counterexample: a failed read yields `none` while a timed-out
read yields `some []`, so the two outcomes are distinguishable to the caller,
contrary to the claim that they are indistinguishable. -/
theorem error_poll_distinguishable_from_timeout :
    (Device.next_unrequested_msg 500 error_read_device).1 = none ∧
    (Device.next_unrequested_msg 500 timeout_read_device).1 = some [] ∧
    (Device.next_unrequested_msg 500 error_read_device).1 ≠
      (Device.next_unrequested_msg 500 timeout_read_device).1 := by
  decide

/-- A device operation issued by the configuration sync or the event loop
(src/lib.rs, `Headset::enable_buttons` / `Headset::set_lights`), recorded as
a trace entry so that which operations were attempted is observable. -/
inductive DeviceOp where
  | enableButtons (enable : Bool)
  | setLights (cfg : lights.Config)
deriving DecidableEq, Repr

/-- The classification a loop iteration gives one poll result, following the
match arms of `Headset::run_with_config` (src/lib.rs) in source order. -/
inductive PollAction where
  | idle
  | micArmEvent (b : Nat)
  | muteEvent
  | buttonsEvent (bytes : List Nat)
  | wheelEvent (b : Nat)
  | powerEvent (rest : List Nat)
  | unhandled (bytes : List Nat)
  | noMessage
deriving DecidableEq, Repr

/-- Classification of a poll result against the resolved `gkey` and `battery`
feature indices (src/lib.rs, the match in `Headset::run_with_config`).  The
`0x11 :: 0xff :: _` arms carry their guards as nested conditionals, in the
source's order; the wheel pattern cannot overlap them. -/
def classify (gkey battery : Nat) (msg : Option (List Nat)) : PollAction :=
  match msg with
  | none => PollAction.noMessage
  | some bytes =>
    match bytes with
    | [] => PollAction.idle
    | [0x08, 0x10] => PollAction.micArmEvent 0x10
    | [0x08, 0x20] => PollAction.micArmEvent 0x20
    | [0x08, 0x01] => PollAction.muteEvent
    | 0x11 :: 0xff :: f :: 0x00 :: rest =>
        if f = gkey then PollAction.buttonsEvent (0x11 :: 0xff :: f :: 0x00 :: rest)
        else if f = battery then PollAction.powerEvent rest
        else PollAction.unhandled (0x11 :: 0xff :: f :: 0x00 :: rest)
    | [0x01, w, 0x00, 0x00, 0x00] => PollAction.wheelEvent w
    | _ => PollAction.unhandled bytes

namespace Headset

/-- src/lib.rs: `const TIMEOUT_IN_MS: i32 = 500`. -/
def TIMEOUT_IN_MS : Int := 500

/-- src/lib.rs: `const RESET_TIME_IN_SEC: i32 = 20`. -/
def RESET_TIME_IN_SEC : Int := 20

/-- src/lib.rs: `const RESET_COUNTER_AFTER: i32 = RESET_TIME_IN_SEC * 1000 / TIMEOUT_IN_MS`. -/
def RESET_COUNTER_AFTER : Int := RESET_TIME_IN_SEC * 1000 / TIMEOUT_IN_MS

/-- The `Some([])` arm of the loop (src/lib.rs, lines 169–194): increment the
idle counter; once it exceeds `RESET_COUNTER_AFTER`, reset it to 0 and re-push
the buttons-enabled flag and both light effects.  `r1`, `r2`, `r3` are the
results of those three device calls; the source discards each with `.ok()`,
so they are unused here. -/
def idle_step (counter : Int) (buttons_enabled : Bool)
    (side_effect logo_effect : lights.Effect)
    (r1 : Except String Unit) (r2 r3 : Except String lights.Config) :
    Int × List DeviceOp :=
  let counter := counter + 1
  if counter > RESET_COUNTER_AFTER then
    (0, [DeviceOp.enableButtons buttons_enabled,
         DeviceOp.setLights
           ⟨lights.Light.Side, side_effect, lights.ProfileType.Temporary⟩,
         DeviceOp.setLights
           ⟨lights.Light.Logo, logo_effect, lights.ProfileType.Temporary⟩])
  else (counter, [])

/-- The idle counter after `n` consecutive idle polls, starting from 0. -/
def idle_iters (be : Bool) (se le : lights.Effect)
    (r1 : Except String Unit) (r2 r3 : Except String lights.Config) : Nat → Int
  | 0 => 0
  | n + 1 => (idle_step (idle_iters be se le r1 r2 r3 n) be se le r1 r2 r3).1

/-- From counter 0, the first 40 idle polls leave the counter at its poll
count and trigger nothing. -/
lemma idle_iters_eq (be : Bool) (se le : lights.Effect)
    (r1 : Except String Unit) (r2 r3 : Except String lights.Config) :
    ∀ n : Nat, n ≤ 40 → idle_iters be se le r1 r2 r3 n = n := by
  intro n
  induction n with
  | zero => intro _; rfl
  | succ n ih =>
      intro hn
      have hrc : RESET_COUNTER_AFTER = 40 := by decide
      rw [idle_iters, idle_step, ih (by omega), hrc]
      rw [if_neg (by omega)]
      push_cast
      ring

end Headset

/-- Claim C8: the idle-poll re-push threshold is `20 * 1000 / 500 = 40`:
starting from counter 0, 40 consecutive idle polls trigger no re-push and
leave the counter at 40; the next idle poll re-pushes the buttons-enabled
flag and both light effects unconditionally and resets the counter to 0; the
results of the re-push calls (including errors) do not affect the loop
state. -/
theorem idle_repush_after_forty (be : Bool) (se le : lights.Effect)
    (r1 : Except String Unit) (r2 r3 : Except String lights.Config) :
    Headset.RESET_COUNTER_AFTER = 20 * 1000 / 500 ∧
    Headset.RESET_COUNTER_AFTER = 40 ∧
    (∀ n : Nat, n ≤ 40 → Headset.idle_iters be se le r1 r2 r3 n = n) ∧
    (∀ n : Nat, n < 40 →
      (Headset.idle_step (Headset.idle_iters be se le r1 r2 r3 n)
        be se le r1 r2 r3).2 = []) ∧
    (Headset.idle_step (Headset.idle_iters be se le r1 r2 r3 40)
        be se le r1 r2 r3).2 =
      [DeviceOp.enableButtons be,
       DeviceOp.setLights ⟨lights.Light.Side, se, lights.ProfileType.Temporary⟩,
       DeviceOp.setLights ⟨lights.Light.Logo, le, lights.ProfileType.Temporary⟩] ∧
    (Headset.idle_step (Headset.idle_iters be se le r1 r2 r3 40)
        be se le r1 r2 r3).1 = 0 ∧
    (∀ c r1' r2' r3',
      Headset.idle_step c be se le r1 r2 r3 = Headset.idle_step c be se le r1' r2' r3') := by
  have hrc : Headset.RESET_COUNTER_AFTER = 40 := by decide
  refine ⟨by decide, hrc, Headset.idle_iters_eq be se le r1 r2 r3, ?_, ?_, ?_, ?_⟩
  · intro n hn
    rw [Headset.idle_iters_eq be se le r1 r2 r3 n (by omega), Headset.idle_step, hrc]
    rw [if_neg (by omega)]
  · rw [Headset.idle_iters_eq be se le r1 r2 r3 40 (by omega), Headset.idle_step, hrc]
    rw [if_pos (by omega)]
  · rw [Headset.idle_iters_eq be se le r1 r2 r3 40 (by omega), Headset.idle_step, hrc]
    rw [if_pos (by omega)]
  · intro c r1' r2' r3'
    rfl

/-- Witness for claim C8 at concrete parameters: counter value after 7 idle
polls, no re-push on the 40th poll, and the re-push fired by the 41st. -/
theorem idle_repush_after_forty_witness :
    Headset.RESET_COUNTER_AFTER = 40 ∧
    Headset.idle_iters true lights.Effect.Off lights.Effect.Off
      (Except.ok ()) (Except.ok colorcycle_example) (Except.ok colorcycle_example) 7 = 7 ∧
    (Headset.idle_step (Headset.idle_iters true lights.Effect.Off lights.Effect.Off
        (Except.ok ()) (Except.ok colorcycle_example) (Except.ok colorcycle_example) 39)
      true lights.Effect.Off lights.Effect.Off
      (Except.ok ()) (Except.ok colorcycle_example) (Except.ok colorcycle_example)).2 = [] ∧
    (Headset.idle_step (Headset.idle_iters true lights.Effect.Off lights.Effect.Off
        (Except.ok ()) (Except.ok colorcycle_example) (Except.ok colorcycle_example) 40)
      true lights.Effect.Off lights.Effect.Off
      (Except.ok ()) (Except.ok colorcycle_example) (Except.ok colorcycle_example)).1 = 0 :=
  ⟨(idle_repush_after_forty true lights.Effect.Off lights.Effect.Off
      (Except.ok ()) (Except.ok colorcycle_example) (Except.ok colorcycle_example)).2.1,
   (idle_repush_after_forty true lights.Effect.Off lights.Effect.Off
      (Except.ok ()) (Except.ok colorcycle_example) (Except.ok colorcycle_example)).2.2.1
      7 (by decide),
   (idle_repush_after_forty true lights.Effect.Off lights.Effect.Off
      (Except.ok ()) (Except.ok colorcycle_example) (Except.ok colorcycle_example)).2.2.2.1
      39 (by decide),
   (idle_repush_after_forty true lights.Effect.Off lights.Effect.Off
      (Except.ok ()) (Except.ok colorcycle_example) (Except.ok colorcycle_example)).2.2.2.2.2.1⟩

/-- Claim C10 (amended): when the buffer is empty and the underlying read
fails, `next_unrequested_msg` discards the error and returns `none`, which
the loop's match treats as no event (`noMessage`: no handler call and no idle
count); a timed-out poll instead returns `some []`, so the two outcomes are
distinguishable; the loop never observes a channel error from polling. -/
theorem next_unrequested_msg_error_to_none (t : Int) (d : Device) (e : String)
    (rest : List ReadResult)
    (hbuf : d.msg_buffer = [])
    (hinc : d.incoming = Except.error e :: rest) :
    (Device.next_unrequested_msg t d).1 = none ∧
    (∀ g b, classify g b (Device.next_unrequested_msg t d).1 = PollAction.noMessage) ∧
    (Device.next_unrequested_msg t { d with incoming := [] }).1 = some [] ∧
    (Device.next_unrequested_msg t { d with incoming := [] }).1 ≠
      (Device.next_unrequested_msg t d).1 := by
  obtain ⟨inc, buf⟩ := d
  simp only at hbuf hinc
  subst hbuf; subst hinc
  refine ⟨rfl, fun g b => rfl, rfl, by simp [Device.next_unrequested_msg, Device.read]⟩

/-- Witness for claim C10 (amended): the concrete failing-read device. -/
theorem next_unrequested_msg_error_to_none_witness :
    (Device.next_unrequested_msg 500 error_read_device).1 = none ∧
    (∀ g b, classify g b (Device.next_unrequested_msg 500 error_read_device).1
      = PollAction.noMessage) ∧
    (Device.next_unrequested_msg 500 { error_read_device with incoming := [] }).1 = some [] ∧
    (Device.next_unrequested_msg 500 { error_read_device with incoming := [] }).1 ≠
      (Device.next_unrequested_msg 500 error_read_device).1 :=
  next_unrequested_msg_error_to_none 500 error_read_device "read failed" [] rfl rfl

namespace config

/-- A field in the config that tracks whether it was changed
(src/config.rs, `ConfigField`). -/
structure ConfigField (T : Type) where
  val : T
  dirty : Bool
deriving DecidableEq, Repr

/-- `ConfigField::set` (src/config.rs): store the value and re-mark dirty. -/
def ConfigField.set {T : Type} (f : ConfigField T) (v : T) : ConfigField T :=
  { val := v, dirty := true }

/-- `ConfigField::force_sync` (src/config.rs). -/
def ConfigField.force_sync {T : Type} (f : ConfigField T) : ConfigField T :=
  { f with dirty := true }

/-- `ConfigField::needs_sync` (src/config.rs): report the old dirty flag and
clear it. -/
def ConfigField.needs_sync {T : Type} (f : ConfigField T) : Bool × ConfigField T :=
  (f.dirty, { f with dirty := false })

/-- The configuration for running the software (src/config.rs, `Config`).
The stored handler closures are modelled as opaque values of a type `H`;
their behaviour when invoked is supplied separately to the `call_*`
functions. -/
structure Config (H : Type) where
  button_handler : ConfigField (Option H)
  power_state_change_handler : ConfigField (Option H)
  periodic_handler : ConfigField (Option H)
  side_light_effect : ConfigField lights.Effect
  logo_light_effect : ConfigField lights.Effect
deriving DecidableEq, Repr

/-- `Config::sync_configuration` (src/config.rs): check each field in source
order with `needs_sync` (which clears the dirty flag), run the corresponding
device operation for the fields that were dirty, and propagate the first
error with `?`.  `enable_buttons` and `set_lights` are the device operations;
the trace component records every operation attempted, in order.  The
power-state field is checked — clearing its flag — but has no operation. -/
def Config.sync_configuration {H : Type}
    (enable_buttons : Bool → Except String Unit)
    (set_lights : lights.Config → Except String lights.Config)
    (c : Config H) : Except String Unit × Config H × List DeviceOp :=
  let p1 := c.button_handler.needs_sync
  let c1 : Config H := { c with button_handler := p1.2 }
  let ops1 : List DeviceOp :=
    if p1.1 then [DeviceOp.enableButtons p1.2.val.isSome] else []
  match (if p1.1 then enable_buttons p1.2.val.isSome else Except.ok ()) with
  | Except.error e => (Except.error e, c1, ops1)
  | Except.ok _ =>
    let p2 := c1.power_state_change_handler.needs_sync
    let c2 : Config H := { c1 with power_state_change_handler := p2.2 }
    let p3 := c2.side_light_effect.needs_sync
    let c3 : Config H := { c2 with side_light_effect := p3.2 }
    let sideCfg : lights.Config :=
      ⟨lights.Light.Side, p3.2.val, lights.ProfileType.Temporary⟩
    let ops2 := ops1 ++ (if p3.1 then [DeviceOp.setLights sideCfg] else [])
    match (if p3.1 then (set_lights sideCfg).map (fun _ => ()) else Except.ok ()) with
    | Except.error e => (Except.error e, c3, ops2)
    | Except.ok _ =>
      let p4 := c3.logo_light_effect.needs_sync
      let c4 : Config H := { c3 with logo_light_effect := p4.2 }
      let logoCfg : lights.Config :=
        ⟨lights.Light.Logo, p4.2.val, lights.ProfileType.Temporary⟩
      let ops3 := ops2 ++ (if p4.1 then [DeviceOp.setLights logoCfg] else [])
      match (if p4.1 then (set_lights logoCfg).map (fun _ => ()) else Except.ok ()) with
      | Except.error e => (Except.error e, c4, ops3)
      | Except.ok _ => (Except.ok (), c4, ops3)

/-- `Config::set_button_handler` (src/config.rs). -/
def Config.set_button_handler {H : Type} (c : Config H) (handler : Option H) : Config H :=
  { c with button_handler := c.button_handler.set handler }

/-- `Config::set_power_state_change_handler` (src/config.rs). -/
def Config.set_power_state_change_handler {H : Type} (c : Config H)
    (handler : Option H) : Config H :=
  { c with power_state_change_handler := c.power_state_change_handler.set handler }

/-- `Config::set_periodic_handler` (src/config.rs). -/
def Config.set_periodic_handler {H : Type} (c : Config H) (handler : Option H) : Config H :=
  { c with periodic_handler := c.periodic_handler.set handler }

/-- `Config::call_button_handler` (src/config.rs): `take()` the stored
handler out of the field, clear the field's dirty flag, invoke the handler
(`run` gives the behaviour of the stored closure, mutating the whole
config), and put the original handler back only if the callback did not mark
the field dirty again. -/
def Config.call_button_handler {H : Type} (run : H → Config H → Config H)
    (c : Config H) : Config H :=
  match c.button_handler.val with
  | none => c
  | some handler =>
    let c1 : Config H := { c with button_handler := { val := none, dirty := false } }
    let c2 := run handler c1
    if c2.button_handler.dirty then c2
    else { c2 with button_handler := { c2.button_handler with val := some handler } }

/-- `Config::call_power_state_change_handler` (src/config.rs): same
discipline for the power-state-change handler field. -/
def Config.call_power_state_change_handler {H : Type} (run : H → Config H → Config H)
    (c : Config H) : Config H :=
  match c.power_state_change_handler.val with
  | none => c
  | some handler =>
    let c1 : Config H :=
      { c with power_state_change_handler := { val := none, dirty := false } }
    let c2 := run handler c1
    if c2.power_state_change_handler.dirty then c2
    else { c2 with power_state_change_handler :=
             { c2.power_state_change_handler with val := some handler } }

/-- `Config::call_periodic_handler` (src/config.rs): same discipline for the
periodic handler field. -/
def Config.call_periodic_handler {H : Type} (run : H → Config H → Config H)
    (c : Config H) : Config H :=
  match c.periodic_handler.val with
  | none => c
  | some handler =>
    let c1 : Config H := { c with periodic_handler := { val := none, dirty := false } }
    let c2 := run handler c1
    if c2.periodic_handler.dirty then c2
    else { c2 with periodic_handler := { c2.periodic_handler with val := some handler } }

end config

/-- An all-dirty configuration, as produced by `Config::default`
(src/config.rs: every field starts dirty for the initial synchronization). -/
def sync_fail_state : config.Config Nat :=
  ⟨⟨none, true⟩, ⟨none, true⟩, ⟨none, true⟩,
   ⟨lights.Effect.Off, true⟩, ⟨lights.Effect.Off, true⟩⟩

/-- A second configuration: clean button handler, dirty side light. -/
def sync_fail_state2 : config.Config Nat :=
  ⟨⟨some 5, false⟩, ⟨none, false⟩, ⟨none, false⟩,
   ⟨lights.Effect.Static 1 2 3, true⟩, ⟨lights.Effect.Off, false⟩⟩

/-- A device whose button operation succeeds. -/
def eb_ok : Bool → Except String Unit := fun _ => Except.ok ()

/-- A device whose light operation always fails. -/
def sl_fail : lights.Config → Except String lights.Config :=
  fun _ => Except.error "sync failed"

/-- Claim C2 counterexample: with the side-light field dirty and its device
operation failing, `sync_configuration` returns the error but the field's
dirty flag is `false` afterwards — the flag does not remain set on failure,
because `needs_sync` clears it before the operation runs. -/
theorem sync_failure_dirty_cleared_example :
    (sync_fail_state.sync_configuration eb_ok sl_fail).1 = Except.error "sync failed" ∧
    (sync_fail_state.sync_configuration eb_ok sl_fail).2.1.side_light_effect.dirty = false := by
  constructor <;> rfl

/-- Claim C2 (amended): `needs_sync` clears a field's dirty flag when the
field is checked, before its device operation runs; if the operation then
fails, the error is returned but the flag does not remain set, so the push
is not retried by the next sync iteration. -/
theorem sync_failure_clears_dirty {H : Type}
    (enable_buttons : Bool → Except String Unit)
    (set_lights : lights.Config → Except String lights.Config)
    (c : config.Config H) (e : String)
    (heb : enable_buttons c.button_handler.val.isSome = Except.ok ())
    (hs : c.side_light_effect.dirty = true)
    (hf : set_lights ⟨lights.Light.Side, c.side_light_effect.val, lights.ProfileType.Temporary⟩
            = Except.error e) :
    (c.sync_configuration enable_buttons set_lights).1 = Except.error e ∧
    (c.sync_configuration enable_buttons set_lights).2.1.side_light_effect.dirty = false := by
  obtain ⟨⟨bval, bd⟩, ⟨pval, pd⟩, ⟨qval, qd⟩, ⟨sval, sd⟩, ⟨lval, ld⟩⟩ := c
  simp only at heb hs hf
  subst hs
  cases bd <;>
    simp [config.Config.sync_configuration, config.ConfigField.needs_sync, Except.map, heb, hf]

/-- Witness for claim C2 (amended) on `sync_fail_state2`. -/
theorem sync_failure_clears_dirty_witness :
    (sync_fail_state2.sync_configuration eb_ok sl_fail).1 = Except.error "sync failed" ∧
    (sync_fail_state2.sync_configuration eb_ok sl_fail).2.1.side_light_effect.dirty = false :=
  sync_failure_clears_dirty eb_ok sl_fail sync_fail_state2 "sync failed" rfl rfl rfl

/-- Claim C3 counterexample: on the all-dirty configuration with a failing
side-light operation, the logo-light field is dirty too, yet no logo-light
operation is attempted — the failure blocks the remaining fields, contrary
to the claim that it does not. -/
theorem sync_failure_blocks_logo_example :
    (sync_fail_state.sync_configuration eb_ok sl_fail).2.2
      = [DeviceOp.enableButtons false,
         DeviceOp.setLights
           ⟨lights.Light.Side, lights.Effect.Off, lights.ProfileType.Temporary⟩] ∧
    DeviceOp.setLights ⟨lights.Light.Logo, lights.Effect.Off, lights.ProfileType.Temporary⟩ ∉
      (sync_fail_state.sync_configuration eb_ok sl_fail).2.2 ∧
    sync_fail_state.logo_light_effect.dirty = true := by
  refine ⟨rfl, ?_, rfl⟩
  decide

/-- Claim C3 (amended): a failing device operation makes `sync_configuration`
return at once with that error: the operations of the fields that come later
in source order are not attempted in that call (their dirty flags are left
as they were, so they are picked up by the next call); the error is reported
to the caller. -/
theorem sync_failure_blocks_remaining {H : Type}
    (enable_buttons : Bool → Except String Unit)
    (set_lights : lights.Config → Except String lights.Config)
    (c : config.Config H) (e : String)
    (heb : enable_buttons c.button_handler.val.isSome = Except.ok ())
    (hs : c.side_light_effect.dirty = true)
    (hf : set_lights ⟨lights.Light.Side, c.side_light_effect.val, lights.ProfileType.Temporary⟩
            = Except.error e) :
    (c.sync_configuration enable_buttons set_lights).1 = Except.error e ∧
    (∀ cfg, DeviceOp.setLights cfg ∈ (c.sync_configuration enable_buttons set_lights).2.2 →
        cfg = ⟨lights.Light.Side, c.side_light_effect.val, lights.ProfileType.Temporary⟩) ∧
    (c.sync_configuration enable_buttons set_lights).2.1.logo_light_effect.dirty
      = c.logo_light_effect.dirty := by
  obtain ⟨⟨bval, bd⟩, ⟨pval, pd⟩, ⟨qval, qd⟩, ⟨sval, sd⟩, ⟨lval, ld⟩⟩ := c
  simp only at heb hs hf
  subst hs
  cases bd <;>
    simp [config.Config.sync_configuration, config.ConfigField.needs_sync, Except.map, heb, hf]

/-- Witness for claim C3 (amended) on `sync_fail_state2`. -/
theorem sync_failure_blocks_remaining_witness :
    (sync_fail_state2.sync_configuration eb_ok sl_fail).1 = Except.error "sync failed" ∧
    (∀ cfg, DeviceOp.setLights cfg ∈ (sync_fail_state2.sync_configuration eb_ok sl_fail).2.2 →
        cfg = ⟨lights.Light.Side, lights.Effect.Static 1 2 3, lights.ProfileType.Temporary⟩) ∧
    (sync_fail_state2.sync_configuration eb_ok sl_fail).2.1.logo_light_effect.dirty
      = sync_fail_state2.logo_light_effect.dirty :=
  sync_failure_blocks_remaining eb_ok sl_fail sync_fail_state2 "sync failed" rfl rfl rfl

/-- Claim C7: for each stored handler (button, power-state, periodic), the
field's dirty flag is cleared before the invocation — so the flag's prior
value cannot influence the outcome; a handler that reassigns its own field
during the invocation (via the public setter) leaves the new value in place
with the dirty flag set, so the next sync picks it up; a handler that does
not touch its own field gets the original handler restored, with the field
present and clean — it does not become empty merely because it was
invoked. -/
theorem handler_invocation_discipline (H : Type) (run : H → config.Config H → config.Config H)
    (c : config.Config H) (hb hp hq : H)
    (h1 : c.button_handler.val = some hb)
    (h2 : c.power_state_change_handler.val = some hp)
    (h3 : c.periodic_handler.val = some hq) :
    (∀ b b', config.Config.call_button_handler run
          { c with button_handler := ⟨some hb, b⟩ }
        = config.Config.call_button_handler run
          { c with button_handler := ⟨some hb, b'⟩ }) ∧
    (∀ b b', config.Config.call_power_state_change_handler run
          { c with power_state_change_handler := ⟨some hp, b⟩ }
        = config.Config.call_power_state_change_handler run
          { c with power_state_change_handler := ⟨some hp, b'⟩ }) ∧
    (∀ b b', config.Config.call_periodic_handler run
          { c with periodic_handler := ⟨some hq, b⟩ }
        = config.Config.call_periodic_handler run
          { c with periodic_handler := ⟨some hq, b'⟩ }) ∧
    (∀ v, (config.Config.call_button_handler
          (fun _ s => s.set_button_handler v) c).button_handler
        = ⟨v, true⟩) ∧
    (∀ v, (config.Config.call_power_state_change_handler
          (fun _ s => s.set_power_state_change_handler v) c).power_state_change_handler
        = ⟨v, true⟩) ∧
    (∀ v, (config.Config.call_periodic_handler
          (fun _ s => s.set_periodic_handler v) c).periodic_handler
        = ⟨v, true⟩) ∧
    ((∀ s, (run hb s).button_handler = s.button_handler) →
      (config.Config.call_button_handler run c).button_handler = ⟨some hb, false⟩) ∧
    ((∀ s, (run hp s).power_state_change_handler = s.power_state_change_handler) →
      (config.Config.call_power_state_change_handler run c).power_state_change_handler
        = ⟨some hp, false⟩) ∧
    ((∀ s, (run hq s).periodic_handler = s.periodic_handler) →
      (config.Config.call_periodic_handler run c).periodic_handler = ⟨some hq, false⟩) := by
  refine ⟨fun b b' => ?_, fun b b' => ?_, fun b b' => ?_,
          fun v => ?_, fun v => ?_, fun v => ?_,
          fun hrun => ?_, fun hrun => ?_, fun hrun => ?_⟩
  · simp [config.Config.call_button_handler]
  · simp [config.Config.call_power_state_change_handler]
  · simp [config.Config.call_periodic_handler]
  · simp [config.Config.call_button_handler, h1,
      config.Config.set_button_handler, config.ConfigField.set]
  · simp [config.Config.call_power_state_change_handler, h2,
      config.Config.set_power_state_change_handler, config.ConfigField.set]
  · simp [config.Config.call_periodic_handler, h3,
      config.Config.set_periodic_handler, config.ConfigField.set]
  · simp [config.Config.call_button_handler, h1, hrun]
  · simp [config.Config.call_power_state_change_handler, h2, hrun]
  · simp [config.Config.call_periodic_handler, h3, hrun]

/-- A configuration holding a handler in each slot, all fields dirty. -/
def handler_config_example : config.Config Nat :=
  ⟨⟨some 0, true⟩, ⟨some 0, true⟩, ⟨some 0, true⟩,
   ⟨lights.Effect.Off, true⟩, ⟨lights.Effect.Off, true⟩⟩

/-- Witness for claim C7: invoking the identity-behaviour handler on
`handler_config_example` leaves its field present and clean. -/
theorem handler_invocation_discipline_witness :
    (config.Config.call_button_handler (fun (_ : Nat) s => s)
        handler_config_example).button_handler = ⟨some 0, false⟩ :=
  (handler_invocation_discipline Nat (fun _ s => s) handler_config_example 0 0 0
      rfl rfl rfl).2.2.2.2.2.2.1 (fun s => rfl)
